import Mathlib

/-!
Verification of the gearman command-line tool (src/bin/gearman.c) and of the
universal-context / packet layer exercised by src/tests/internals.cc.

The CLI is shallowly embedded: each call into the gearman client/worker library
is an external event whose outcome is scripted as an input to the embedding
(the library itself is not part of this repository's sources).  Machine
integers are modelled as Nat/Int with explicit reduction mod 2^32 (uint32_t)
or 2^64 (size_t) where C overflow semantics matter.  C undefined behaviour
(division by zero, reading an uninitialized variable) is made explicit:
division by zero is a distinct terminal outcome, and the uninitialized
`write_ret` variable of `_client_do` is an unconstrained input parameter.
-/

namespace Gearman

/-- Return codes of the gearman client library as observed by the CLI.
`GEARMAN_OTHER_ERROR` stands for every return that is none of the four
codes the CLI tests for (the `else` branch of `_client_do`). -/
inductive gearman_return_t where
  | GEARMAN_SUCCESS
  | GEARMAN_WORK_DATA
  | GEARMAN_WORK_STATUS
  | GEARMAN_WORK_FAIL
  | GEARMAN_OTHER_ERROR
deriving DecidableEq, Repr

/-- Messages the CLI prints to standard error (modelled as an enumeration so
the embedding tracks which message was printed, not its formatting). -/
inductive StderrMsg where
  | jobFailed        -- fprintf(stderr, "Job failed\n")
  | writeError       -- fprintf(stderr, "Error writing to standard output (%d)\n", errno)
  | clientError      -- fprintf(stderr, "%s\n", gearman_client_error(client))
deriving DecidableEq, Repr

/-- One scripted outcome of a `gearman_client_do` call: the return code, the
result buffer (bytes), the numerator/denominator pair a following
`gearman_client_do_status` would report (uint32_t values), and the value the
`write(1, result, result_size)` syscall would return in this iteration. -/
structure DoResp where
  ret : gearman_return_t
  result : List Nat
  numerator : Nat
  denominator : Nat
  writeRet : Int
deriving DecidableEq, Repr

/-- Observable events of one `_client_do` call, in order. -/
inductive Event where
  | stdoutWrite (bytes : List Nat) (sysRet : Int)   -- write(1, result, result_size)
  | progress (pct : Nat)                             -- printf("%u%% Complete\n", pct)
  | stderrMsg (m : StderrMsg)
deriving DecidableEq, Repr

/-- How a `_client_do` call ends. -/
inductive DoTerm where
  | returned            -- the function returns to its caller
  | exited (code : Nat) -- exit(code)
  | divByZero           -- undefined behaviour: (numerator*100)/0 in the status branch
  | scriptExhausted     -- the loop would invoke gearman_client_do again
deriving DecidableEq, Repr

/-- The `%u%% Complete` percentage of the WORK_STATUS branch, line 218 of
gearman.c: `(numerator * 100) / denominator` in uint32_t arithmetic.  Only
meaningful when the denominator is nonzero. -/
def statusPct (numerator denominator : Nat) : Nat :=
  (numerator % 2 ^ 32 * 100) % 2 ^ 32 / (denominator % 2 ^ 32)

/-- Embedding of `_client_do` (gearman.c lines 189-233).  `write_ret` is the
value of the uninitialized local `ssize_t write_ret` — the source declares it,
never assigns it, and compares it against 0 in the WORK_DATA branch, so the
branch taken there depends on this arbitrary stack value.  `script` gives the
outcome of each successive `gearman_client_do` call. -/
def clientDo (write_ret : Int) : List DoResp → List Event × DoTerm
  | [] => ([], DoTerm.scriptExhausted)
  | r :: rest =>
    match r.ret with
    | gearman_return_t.GEARMAN_WORK_DATA =>
      -- write(1, result, result_size);  (return value discarded)
      -- if (write_ret < 0) { fprintf(stderr, ...); exit(1); }
      if write_ret < 0 then
        ([Event.stdoutWrite r.result r.writeRet, Event.stderrMsg StderrMsg.writeError],
         DoTerm.exited 1)
      else
        let k := clientDo write_ret rest
        (Event.stdoutWrite r.result r.writeRet :: k.1, k.2)
    | gearman_return_t.GEARMAN_WORK_STATUS =>
      -- gearman_client_do_status(client, &numerator, &denominator);
      -- printf("%u%% Complete\n", (numerator * 100) / denominator);
      if r.denominator % 2 ^ 32 = 0 then
        ([], DoTerm.divByZero)
      else
        let k := clientDo write_ret rest
        (Event.progress (statusPct r.numerator r.denominator) :: k.1, k.2)
    | gearman_return_t.GEARMAN_SUCCESS =>
      -- write(1, result, result_size); free(result); break;
      ([Event.stdoutWrite r.result r.writeRet], DoTerm.returned)
    | gearman_return_t.GEARMAN_WORK_FAIL =>
      ([Event.stderrMsg StderrMsg.jobFailed], DoTerm.returned)
    | gearman_return_t.GEARMAN_OTHER_ERROR =>
      ([Event.stderrMsg StderrMsg.clientError], DoTerm.returned)

/-- Outcome of one whole process invocation. -/
inductive ProcOutcome where
  | exit (code : Nat)
  | divByZero
  | hang       -- the embedding's script ran out while the program would continue
deriving DecidableEq, Repr

/-- Outcomes of the setup steps `main` and `_client` perform before entering
the do loop.  Each field says whether the corresponding external call
succeeds: getopt saw only valid options, signal(SIGPIPE,...) succeeded, the
argument count check passed, gearman_client_create returned non-NULL,
gearman_client_add_server returned GEARMAN_SUCCESS, and `_read_workload`
finished without a read error or allocation failure. -/
structure SetupEnv where
  optsOk : Bool
  signalOk : Bool
  argcOk : Bool
  createOk : Bool
  addServerOk : Bool
  readOk : Bool
deriving DecidableEq, Repr

/-- All setup steps succeed. -/
def SetupEnv.allOk (e : SetupEnv) : Bool :=
  e.optsOk && e.signalOk && e.argcOk && e.createOk && e.addServerOk && e.readOk

/-- Embedding of `main` on the plain-client path (gearman.c lines 45-147):
each failing setup step prints to stderr and calls exit(1); otherwise
`_client` runs `_client_do` once and `main` returns 0. -/
def clientMain (env : SetupEnv) (write_ret : Int) (script : List DoResp) :
    ProcOutcome :=
  if !env.optsOk then ProcOutcome.exit 1
  else if !env.signalOk then ProcOutcome.exit 1
  else if !env.argcOk then ProcOutcome.exit 1
  else if !env.createOk then ProcOutcome.exit 1
  else if !env.addServerOk then ProcOutcome.exit 1
  else if !env.readOk then ProcOutcome.exit 1
  else
    match (clientDo write_ret script).2 with
    | DoTerm.returned => ProcOutcome.exit 0
    | DoTerm.exited c => ProcOutcome.exit c
    | DoTerm.divByZero => ProcOutcome.divByZero
    | DoTerm.scriptExhausted => ProcOutcome.hang

/-- Embedding of the `_worker` loop (gearman.c lines 274-289).  `script` is
the sequence of `gearman_worker_work` outcomes (true = GEARMAN_SUCCESS).
The result is the number of successful iterations performed when the loop
breaks, or `none` when the script is exhausted with the loop still running.
The C `count` is int32_t; it only ever decrements while positive, so plain
Int models it exactly. -/
def workerLoop (count : Int) : List Bool → Option Nat
  | [] => none
  | ok :: rest =>
    if ok then
      if count > 0 then
        if count - 1 = 0 then some 1
        else Option.map (· + 1) (workerLoop (count - 1) rest)
      else Option.map (· + 1) (workerLoop count rest)
    else some 0

/-- Number of bytes before the first NUL: C `strlen` on the buffer `fgets`
filled. -/
def strlenBytes : List Nat → Nat
  | [] => 0
  | b :: rest => if b = 0 then 0 else strlenBytes rest + 1

/-- Workload size `_client_nl` passes to `_client_do` (gearman.c lines
180-183): `strlen(workload) - 1` when stripping newlines, `strlen(workload)`
otherwise, both computed in size_t (subtraction wraps mod 2^64). -/
def nlWorkloadSize (strip_newline : Bool) (buf : List Nat) : Nat :=
  if strip_newline then (strlenBytes buf + (2 ^ 64 - 1)) % 2 ^ 64
  else strlenBytes buf

/-- Modelled from the spec: the universal-context option enumeration
(`gearman_universal_options_t`) — the libgearman sources are not in this
repository, only src/tests/internals.cc exercises them.  Per the spec,
"Options are a small enumerated set applied at creation: NON_BLOCKING,
DONT_TRACK_PACKETS, STORED_NON_BLOCKING"; `GEARMAN_MAX` is the sentinel the
tests use to terminate an option array. -/
inductive gearman_universal_options_t where
  | GEARMAN_NON_BLOCKING
  | GEARMAN_DONT_TRACK_PACKETS
  | GEARMAN_STORED_NON_BLOCKING
  | GEARMAN_MAX
deriving DecidableEq, Repr

/-- Modelled from the spec: the three boolean option flags of a universal
context, as read by the tests (`options.dont_track_packets` etc.). -/
structure UniversalOptions where
  dont_track_packets : Bool
  non_blocking : Bool
  stored_non_blocking : Bool
deriving DecidableEq, Repr

/-- Modelled from the spec: the scalar and list state of a
`gearman_universal_st` ("ordered list of Connections, ordered list of
free-standing Packets, global option flags, default timeout (milliseconds,
default −1), last-error code", verbosity).  Connections and packets are
identified abstractly by Nat ids. -/
structure gearman_universal_st where
  options : UniversalOptions
  verbose : Nat
  con_count : Nat
  packet_count : Nat
  timeout : Int
  last_errno : Int
  con_list : List Nat
  packet_list : List Nat
deriving DecidableEq, Repr

/-- Modelled from the spec: the state of a freshly created context before any
option from the creation array is applied — all flags clear, no connections
or packets, timeout −1 ("block indefinitely"), no error recorded. -/
def universalInit : gearman_universal_st :=
  { options := { dont_track_packets := false, non_blocking := false,
                 stored_non_blocking := false }
    verbose := 0
    con_count := 0
    packet_count := 0
    timeout := -1
    last_errno := 0
    con_list := []
    packet_list := [] }

/-- Modelled from the spec: `gearman_universal_add_options` sets the flag for
the given option; "adding an already-set option is a no-op".  The sentinel
`GEARMAN_MAX` names no flag and changes nothing. -/
def gearman_universal_add_options (u : gearman_universal_st)
    (o : gearman_universal_options_t) : gearman_universal_st :=
  match o with
  | gearman_universal_options_t.GEARMAN_NON_BLOCKING =>
    { u with options.non_blocking := true }
  | gearman_universal_options_t.GEARMAN_DONT_TRACK_PACKETS =>
    { u with options.dont_track_packets := true }
  | gearman_universal_options_t.GEARMAN_STORED_NON_BLOCKING =>
    { u with options.stored_non_blocking := true }
  | gearman_universal_options_t.GEARMAN_MAX => u

/-- Modelled from the spec: `gearman_universal_remove_options` clears the
flag for the given option; removing an unset option is a no-op. -/
def gearman_universal_remove_options (u : gearman_universal_st)
    (o : gearman_universal_options_t) : gearman_universal_st :=
  match o with
  | gearman_universal_options_t.GEARMAN_NON_BLOCKING =>
    { u with options.non_blocking := false }
  | gearman_universal_options_t.GEARMAN_DONT_TRACK_PACKETS =>
    { u with options.dont_track_packets := false }
  | gearman_universal_options_t.GEARMAN_STORED_NON_BLOCKING =>
    { u with options.stored_non_blocking := false }
  | gearman_universal_options_t.GEARMAN_MAX => u

/-- Modelled from the spec: `gearman_universal_create(options[])` starts from
the initial state and applies each option of the array in order (the tests
pass the array NUL-analogue-terminated by `GEARMAN_MAX`; the Lean list holds
the options before the sentinel). -/
def gearman_universal_create (opts : List gearman_universal_options_t) :
    gearman_universal_st :=
  opts.foldl gearman_universal_add_options universalInit

/-- Modelled from the spec: the timeout setter. -/
def gearman_universal_set_timeout (u : gearman_universal_st) (t : Int) :
    gearman_universal_st :=
  { u with timeout := t }

/-- Modelled from the spec: the timeout getter. -/
def gearman_universal_timeout (u : gearman_universal_st) : Int :=
  u.timeout

/-- Modelled from the spec: `gearman_universal_clone(dst, src)` — "cloning a
context duplicates flags and counters but never duplicates live
connection/packet ownership — a clone starts with empty connection/packet
lists; only scalar state is copied." -/
def gearman_universal_clone (src : gearman_universal_st) :
    gearman_universal_st :=
  { options := src.options
    verbose := src.verbose
    con_count := src.con_count
    packet_count := src.packet_count
    timeout := src.timeout
    last_errno := src.last_errno
    con_list := []
    packet_list := [] }

/-- The flag of a context corresponding to one option value (how the tests
read back `options.non_blocking` etc.); the sentinel has no flag. -/
def optionFlag (u : gearman_universal_st) :
    gearman_universal_options_t → Bool
  | gearman_universal_options_t.GEARMAN_NON_BLOCKING => u.options.non_blocking
  | gearman_universal_options_t.GEARMAN_DONT_TRACK_PACKETS =>
    u.options.dont_track_packets
  | gearman_universal_options_t.GEARMAN_STORED_NON_BLOCKING =>
    u.options.stored_non_blocking
  | gearman_universal_options_t.GEARMAN_MAX => false

/-- Modelled from the spec: the data-carrying part of a `gearman_packet_st` —
a data pointer (abstract Nat id, `none` = NULL), its size, and the
`free_data` ownership flag ("a single flag distinguishes" owned from
borrowed data). -/
structure gearman_packet_st where
  data : Option Nat
  data_size : Nat
  free_data : Bool
deriving DecidableEq, Repr

/-- Modelled from the spec: a freshly created packet — no data, ownership
flag clear (src/tests/internals.cc packet_init_test). -/
def gearman_packet_create : gearman_packet_st :=
  { data := none, data_size := 0, free_data := false }

/-- Modelled from the spec: `gearman_packet_give_data(packet, data, size)`
hands a caller buffer to the packet, which then owns it (`free_data` set). -/
def gearman_packet_give_data (p : gearman_packet_st) (d : Nat) (n : Nat) :
    gearman_packet_st :=
  { p with data := some d, data_size := n, free_data := true }

/-- Modelled from the spec: `gearman_packet_take_data(packet, &size)` returns
the packet's buffer and size to the caller and leaves the packet with NULL
data, zero size and the ownership flag cleared, so the packet will not free a
buffer it no longer owns. -/
def gearman_packet_take_data (p : gearman_packet_st) :
    (Option Nat × Nat) × gearman_packet_st :=
  ((p.data, p.data_size),
   { p with data := none, data_size := 0, free_data := false })

/-! Theorems -/

/-- Claim C6: a freshly created universal context has timeout −1 (block
indefinitely), and after gearman_universal_set_timeout with any integer t the
getter gearman_universal_timeout returns exactly t. -/
theorem universal_timeout_spec (u : gearman_universal_st) (t : Int) :
    gearman_universal_timeout (gearman_universal_create []) = -1 ∧
    gearman_universal_timeout (gearman_universal_set_timeout u t) = t :=
  ⟨rfl, rfl⟩

/-- Claim C8: after cloning, the destination context's scalar state — option
flags, verbosity, connection and packet counts, timeout, last-error number —
equals the source's, and the clone starts with empty connection and packet
lists. -/
theorem universal_clone_spec (src : gearman_universal_st) :
    (gearman_universal_clone src).options = src.options ∧
    (gearman_universal_clone src).verbose = src.verbose ∧
    (gearman_universal_clone src).con_count = src.con_count ∧
    (gearman_universal_clone src).packet_count = src.packet_count ∧
    (gearman_universal_clone src).timeout = src.timeout ∧
    (gearman_universal_clone src).last_errno = src.last_errno ∧
    (gearman_universal_clone src).con_list = [] ∧
    (gearman_universal_clone src).packet_list = [] :=
  ⟨rfl, rfl, rfl, rfl, rfl, rfl, rfl, rfl⟩

/-- Claim C9: after gearman_packet_give_data the packet holds exactly the
given buffer and size with the ownership flag set; a subsequent
gearman_packet_take_data returns that buffer and size and leaves the packet
with null data, zero size, and the ownership flag cleared. -/
theorem packet_give_take_spec (p : gearman_packet_st) (d n : Nat) :
    (gearman_packet_give_data p d n).data = some d ∧
    (gearman_packet_give_data p d n).data_size = n ∧
    (gearman_packet_give_data p d n).free_data = true ∧
    (gearman_packet_take_data (gearman_packet_give_data p d n)).1 =
      (some d, n) ∧
    (gearman_packet_take_data (gearman_packet_give_data p d n)).2 =
      { data := none, data_size := 0, free_data := false } :=
  ⟨rfl, rfl, rfl, rfl, rfl⟩

/-- Claim C4: at the failing input — a WORK_DATA chunk whose
write(1, result, result_size) returns −1, with the uninitialized write_ret
happening to hold 0, followed by a GEARMAN_SUCCESS whose write also returns
−1 — _client_do performs both failing writes, prints no write-error message,
returns normally, and the whole process exits 0 instead of printing an error
and exiting non-zero. -/
theorem client_write_failure_ignored :
    clientDo 0 [⟨gearman_return_t.GEARMAN_WORK_DATA, [1, 2], 0, 0, -1⟩,
                ⟨gearman_return_t.GEARMAN_SUCCESS, [3], 0, 0, -1⟩] =
      ([Event.stdoutWrite [1, 2] (-1), Event.stdoutWrite [3] (-1)],
       DoTerm.returned) ∧
    clientMain ⟨true, true, true, true, true, true⟩ 0
        [⟨gearman_return_t.GEARMAN_WORK_DATA, [1, 2], 0, 0, -1⟩,
         ⟨gearman_return_t.GEARMAN_SUCCESS, [3], 0, 0, -1⟩] =
      ProcOutcome.exit 0 :=
  ⟨rfl, rfl⟩

/-- Claim C2: a WORK_STATUS response makes _client_do compute the percentage
(numerator multiplied by 100, divided by the denominator, in uint32_t
arithmetic) with no guard on the denominator: a zero denominator divides by
zero, and a nonzero denominator yields exactly the unguarded quotient. -/
theorem client_do_status_division (w wr : Int) (num den : Nat)
    (res : List Nat) (rest : List DoResp) (hden : den < 2 ^ 32) :
    (den = 0 →
      clientDo w ({ ret := gearman_return_t.GEARMAN_WORK_STATUS,
                    result := res, numerator := num, denominator := den,
                    writeRet := wr } :: rest) = ([], DoTerm.divByZero)) ∧
    (den ≠ 0 →
      clientDo w ({ ret := gearman_return_t.GEARMAN_WORK_STATUS,
                    result := res, numerator := num, denominator := den,
                    writeRet := wr } :: rest) =
        (Event.progress (statusPct num den) :: (clientDo w rest).1,
         (clientDo w rest).2)) ∧
    (num * 100 < 2 ^ 32 → statusPct num den = num * 100 / den) := by
  have hmod : den % 2 ^ 32 = den := Nat.mod_eq_of_lt hden
  refine ⟨?_, ?_, ?_⟩
  · intro h
    simp [clientDo, hmod, h]
  · intro h
    have h2 : ¬ den % 2 ^ 32 = 0 := by rw [hmod]; exact h
    simp only [clientDo]
    rw [if_neg h2]
  · intro h
    have hnum : num < 2 ^ 32 := lt_of_le_of_lt (Nat.le_mul_of_pos_right num
      (by norm_num)) h
    unfold statusPct
    rw [Nat.mod_eq_of_lt hnum, Nat.mod_eq_of_lt h, hmod]

/-- Claim C2 witness: concrete instances — a zero denominator ends the call
in a division by zero, and denominator 4 with numerator 50 computes
50 * 100 / 4. -/
theorem client_do_status_division_witness :
    clientDo 0 [{ ret := gearman_return_t.GEARMAN_WORK_STATUS, result := [],
                  numerator := 7, denominator := 0, writeRet := 0 }] =
      ([], DoTerm.divByZero) ∧
    statusPct 50 4 = 50 * 100 / 4 := by
  constructor
  · exact (client_do_status_division 0 0 7 0 [] [] (by norm_num)).1 rfl
  · exact (client_do_status_division 0 0 50 4 [] [] (by norm_num)).2.2
      (by norm_num)

/-- Adding one option sets exactly that option's flag and leaves every other
flag unchanged; the sentinel sets nothing. -/
theorem optionFlag_add_iff (u : gearman_universal_st)
    (a o : gearman_universal_options_t) :
    optionFlag (gearman_universal_add_options u a) o = true ↔
      (optionFlag u o = true ∨
        (a = o ∧ a ≠ gearman_universal_options_t.GEARMAN_MAX)) := by
  cases a <;> cases o <;>
    simp [gearman_universal_add_options, optionFlag]

/-- Folding option additions over a list sets a (non-sentinel) flag exactly
when the list mentions it or it was already set. -/
theorem optionFlag_foldl (opts : List gearman_universal_options_t)
    (u : gearman_universal_st) (o : gearman_universal_options_t)
    (ho : o ≠ gearman_universal_options_t.GEARMAN_MAX) :
    (optionFlag (opts.foldl gearman_universal_add_options u) o = true ↔
      (optionFlag u o = true ∨ o ∈ opts)) := by
  induction opts generalizing u with
  | nil => simp
  | cons a rest ih =>
    rw [List.foldl_cons, ih, optionFlag_add_iff]
    constructor
    · rintro ((h | ⟨rfl, hne⟩) | h)
      · exact Or.inl h
      · exact Or.inr (List.mem_cons_self _ _)
      · exact Or.inr (List.mem_cons_of_mem _ h)
    · rintro (h | h)
      · exact Or.inl (Or.inl h)
      · rcases List.mem_cons.mp h with rfl | h2
        · exact Or.inl (Or.inr ⟨rfl, ho⟩)
        · exact Or.inr h2

/-- Claim C7: creating a context with an option array sets exactly the
listed flags and leaves all others clear; adding an already-set option
leaves the context unchanged, and removing an unset option is a no-op. -/
theorem universal_options_spec (opts : List gearman_universal_options_t)
    (u : gearman_universal_st) (o : gearman_universal_options_t)
    (ho : o ≠ gearman_universal_options_t.GEARMAN_MAX) :
    (optionFlag (gearman_universal_create opts) o = true ↔ o ∈ opts) ∧
    (optionFlag u o = true → gearman_universal_add_options u o = u) ∧
    (optionFlag u o = false → gearman_universal_remove_options u o = u) := by
  refine ⟨?_, ?_, ?_⟩
  · rw [gearman_universal_create,
      optionFlag_foldl opts universalInit o ho]
    have h0 : optionFlag universalInit o = false := by
      cases o <;> rfl
    rw [h0]
    simp
  · intro h
    obtain ⟨⟨dt, nb, st⟩, v, cc, pc, tm, le, cl, pl⟩ := u
    cases o <;> simp_all [optionFlag, gearman_universal_add_options]
  · intro h
    obtain ⟨⟨dt, nb, st⟩, v, cc, pc, tm, le, cl, pl⟩ := u
    cases o <;> simp_all [optionFlag, gearman_universal_remove_options]

/-- Claim C7 witness: the flags of a context created with
NON_BLOCKING and DONT_TRACK_PACKETS, idempotent re-add of a set option, and
no-op removal of an unset option, at concrete states. -/
theorem universal_options_spec_witness :
    optionFlag
        (gearman_universal_create
          [gearman_universal_options_t.GEARMAN_NON_BLOCKING,
           gearman_universal_options_t.GEARMAN_DONT_TRACK_PACKETS])
        gearman_universal_options_t.GEARMAN_NON_BLOCKING = true ∧
    gearman_universal_add_options
        (gearman_universal_create
          [gearman_universal_options_t.GEARMAN_NON_BLOCKING])
        gearman_universal_options_t.GEARMAN_NON_BLOCKING =
      gearman_universal_create
        [gearman_universal_options_t.GEARMAN_NON_BLOCKING] ∧
    gearman_universal_remove_options universalInit
        gearman_universal_options_t.GEARMAN_NON_BLOCKING = universalInit := by
  refine ⟨?_, ?_, ?_⟩
  · exact (universal_options_spec
      [gearman_universal_options_t.GEARMAN_NON_BLOCKING,
       gearman_universal_options_t.GEARMAN_DONT_TRACK_PACKETS]
      universalInit gearman_universal_options_t.GEARMAN_NON_BLOCKING
      (by decide)).1.mpr (by decide)
  · exact (universal_options_spec []
      (gearman_universal_create
        [gearman_universal_options_t.GEARMAN_NON_BLOCKING])
      gearman_universal_options_t.GEARMAN_NON_BLOCKING
      (by decide)).2.1 (by decide)
  · exact (universal_options_spec [] universalInit
      gearman_universal_options_t.GEARMAN_NON_BLOCKING
      (by decide)).2.2 (by decide)

/-- Claim C3 counterexample: a scripted sequence starting with a WORK_STATUS
whose denominator is 0 does not continue with a progress line — the call ends
in a division by zero — so status returns are not always non-terminal as the
claim states for every sequence. -/
theorem client_do_demux_cex :
    clientDo 0 [⟨gearman_return_t.GEARMAN_WORK_STATUS, [], 1, 0, 0⟩,
                ⟨gearman_return_t.GEARMAN_SUCCESS, [97], 0, 0, 1⟩] =
      ([], DoTerm.divByZero) ∧
    DoTerm.divByZero ≠ DoTerm.returned ∧
    (clientDo 0 [⟨gearman_return_t.GEARMAN_SUCCESS, [97], 0, 0, 1⟩]).2 =
      DoTerm.returned :=
  ⟨rfl, by decide, rfl⟩

/-- Claim C3 (amended): provided the uninitialized write_ret value is
nonnegative and every WORK_STATUS carries a nonzero denominator, the loop
continues (writing the chunk) on WORK_DATA and continues (printing a
progress line) on WORK_STATUS, and terminates only on SUCCESS (writing the
result bytes), WORK_FAIL (printing Job failed, no result written), or any
other error return. -/
theorem client_do_demux (w : Int) (r : DoResp) (rest : List DoResp)
    (hw : 0 ≤ w) :
    (r.ret = gearman_return_t.GEARMAN_WORK_DATA →
       clientDo w (r :: rest) =
         (Event.stdoutWrite r.result r.writeRet :: (clientDo w rest).1,
          (clientDo w rest).2)) ∧
    (r.ret = gearman_return_t.GEARMAN_WORK_STATUS →
       r.denominator % 2 ^ 32 ≠ 0 →
       clientDo w (r :: rest) =
         (Event.progress (statusPct r.numerator r.denominator) ::
            (clientDo w rest).1, (clientDo w rest).2)) ∧
    (r.ret = gearman_return_t.GEARMAN_SUCCESS →
       clientDo w (r :: rest) =
         ([Event.stdoutWrite r.result r.writeRet], DoTerm.returned)) ∧
    (r.ret = gearman_return_t.GEARMAN_WORK_FAIL →
       clientDo w (r :: rest) =
         ([Event.stderrMsg StderrMsg.jobFailed], DoTerm.returned)) ∧
    (r.ret = gearman_return_t.GEARMAN_OTHER_ERROR →
       clientDo w (r :: rest) =
         ([Event.stderrMsg StderrMsg.clientError], DoTerm.returned)) := by
  obtain ⟨rret, rres, rnum, rden, rwr⟩ := r
  have hw2 : ¬ w < 0 := not_lt.mpr hw
  refine ⟨?_, ?_, ?_, ?_, ?_⟩
  · intro h
    cases h
    simp only [clientDo]
    rw [if_neg hw2]
  · intro h h2
    cases h
    simp only [clientDo] at h2 ⊢
    rw [if_neg h2]
  · intro h
    cases h
    rfl
  · intro h
    cases h
    rfl
  · intro h
    cases h
    rfl

/-- Claim C3 witness: the amended demultiplexing behaviour at concrete
scripts — a WORK_DATA chunk continues into the rest of the script, and a
WORK_FAIL terminates reporting failure with no result written. -/
theorem client_do_demux_witness :
    clientDo 0 [⟨gearman_return_t.GEARMAN_WORK_DATA, [1], 0, 0, 1⟩] =
      (Event.stdoutWrite [1] 1 :: (clientDo 0 []).1, (clientDo 0 []).2) ∧
    clientDo 0 [⟨gearman_return_t.GEARMAN_WORK_FAIL, [], 0, 0, 0⟩] =
      ([Event.stderrMsg StderrMsg.jobFailed], DoTerm.returned) := by
  constructor
  · exact (client_do_demux 0 ⟨gearman_return_t.GEARMAN_WORK_DATA, [1], 0, 0, 1⟩
      [] (by decide)).1 rfl
  · exact (client_do_demux 0 ⟨gearman_return_t.GEARMAN_WORK_FAIL, [], 0, 0, 0⟩
      [] (by decide)).2.2.2.1 rfl

/-- With a positive count and that many successes available, the worker loop
performs exactly `count` successful iterations and returns. -/
theorem workerLoop_pos (N : Nat) (rest : List Bool) (hN : 0 < N) :
    workerLoop (N : Int) (List.replicate N true ++ rest) = some N := by
  induction N with
  | zero => exact absurd hN (lt_irrefl 0)
  | succ n ih =>
    rcases Nat.eq_zero_or_pos n with rfl | hn
    · simp [workerLoop]
    · have h1 : (0 : Int) < (n + 1 : Nat) := by positivity
      have h2 : ((n + 1 : Nat) : Int) - 1 = (n : Int) := by push_cast; ring
      have h3 : ((n + 1 : Nat) : Int) - 1 ≠ 0 := by
        rw [h2]; exact_mod_cast hn.ne.symm
      rw [List.replicate_succ, List.cons_append]
      simp only [workerLoop, if_pos rfl, if_pos h1, if_neg h3, h2]
      rw [ih hn]
      have h4 : ¬ ((n : Int) = 0) := by exact_mod_cast hn.ne.symm
      simp [h4]

/-- If the j-th `gearman_worker_work` call fails while the remaining count is
still larger than j, the loop returns after j successful iterations. -/
theorem workerLoop_fail (j : Nat) (c : Int) (rest : List Bool)
    (hj : (j : Int) < c) :
    workerLoop c (List.replicate j true ++ false :: rest) = some j := by
  induction j generalizing c with
  | zero => simp [workerLoop]
  | succ n ih =>
    have h1 : (0 : Int) < c := lt_of_le_of_lt (by positivity) hj
    have h3 : c - 1 ≠ 0 := by
      have : (1 : Int) < c := lt_of_le_of_lt (by exact_mod_cast Nat.succ_le_succ (Nat.zero_le n)) hj
      omega
    rw [List.replicate_succ, List.cons_append]
    simp only [workerLoop, if_pos rfl, if_pos h1, if_neg h3]
    rw [ih (c - 1) (by push_cast at hj ⊢; omega)]
    rfl

/-- With count 0 the loop never stops on its own: an all-success script is
consumed entirely with the loop still running. -/
theorem workerLoop_zero_runs (k : Nat) :
    workerLoop 0 (List.replicate k true) = none := by
  induction k with
  | zero => rfl
  | succ n ih =>
    rw [List.replicate_succ]
    simp only [workerLoop, if_pos rfl]
    rw [if_neg (by omega : ¬ (0 : Int) > 0), ih]
    rfl

/-- With count 0 the loop returns exactly at the first failing iteration. -/
theorem workerLoop_zero_fail (k : Nat) (rest : List Bool) :
    workerLoop 0 (List.replicate k true ++ false :: rest) = some k := by
  induction k with
  | zero => simp [workerLoop]
  | succ n ih =>
    rw [List.replicate_succ, List.cons_append]
    simp only [workerLoop, if_pos rfl]
    rw [if_neg (by omega : ¬ (0 : Int) > 0), ih]
    rfl

/-- Claim C5: for count N > 0 the worker loop returns after exactly N
successful gearman_worker_work iterations, or after j < N of them when the
next iteration fails; for count 0 it runs as long as iterations succeed and
returns only when one fails. -/
theorem worker_loop_count (N j k : Nat) (rest : List Bool)
    (hN : 0 < N) (hj : j < N) :
    workerLoop (N : Int) (List.replicate N true ++ rest) = some N ∧
    workerLoop (N : Int) (List.replicate j true ++ false :: rest) = some j ∧
    workerLoop 0 (List.replicate k true) = none ∧
    workerLoop 0 (List.replicate k true ++ false :: rest) = some k :=
  ⟨workerLoop_pos N rest hN,
   workerLoop_fail j (N : Int) rest (by exact_mod_cast hj),
   workerLoop_zero_runs k,
   workerLoop_zero_fail k rest⟩

/-- Claim C5 witness: count 2 with two successes stops after exactly 2 jobs;
count 2 with an immediate second-iteration failure stops after 1; count 0
keeps running over three successes and stops at a failure after 3. -/
theorem worker_loop_count_witness :
    workerLoop ((2 : Nat) : Int) (List.replicate 2 true ++ []) = some 2 ∧
    workerLoop ((2 : Nat) : Int) (List.replicate 1 true ++ false :: []) =
      some 1 ∧
    workerLoop 0 (List.replicate 3 true) = none ∧
    workerLoop 0 (List.replicate 3 true ++ false :: []) = some 3 :=
  worker_loop_count 2 1 3 [] (by norm_num) (by norm_num)

/-- All-nonzero prefixes pass strlen through: the length of the string is the
prefix length plus the strlen of the remainder. -/
theorem strlenBytes_append (l m : List Nat) (hnz : ∀ x ∈ l, x ≠ 0) :
    strlenBytes (l ++ m) = l.length + strlenBytes m := by
  induction l with
  | nil => simp [strlenBytes]
  | cons b rest ih =>
    have hb : b ≠ 0 := hnz b (List.mem_cons_self _ _)
    have hrest : ∀ x ∈ rest, x ≠ 0 := fun x hx =>
      hnz x (List.mem_cons_of_mem _ hx)
    rw [List.cons_append]
    simp only [strlenBytes, if_neg hb]
    rw [ih hrest, List.length_cons]
    ring

/-- Claim C10: with -N, _client_nl submits strlen(line) − 1 bytes computed in
size_t: for a line of nonzero bytes ending in any final byte b (newline or
not) the final byte is dropped, and for a line whose first byte is NUL the
size wraps to 2^64 − 1. -/
theorem nl_strip_size (l rest : List Nat) (b : Nat)
    (hnz : ∀ x ∈ l, x ≠ 0) (hb : b ≠ 0) (hlen : l.length + 1 < 2 ^ 64) :
    nlWorkloadSize true (l ++ [b, 0]) = l.length ∧
    nlWorkloadSize true (0 :: rest) = 2 ^ 64 - 1 := by
  constructor
  · have hstr : strlenBytes (l ++ [b, 0]) = l.length + 1 := by
      rw [strlenBytes_append l [b, 0] hnz]
      simp [strlenBytes, hb]
    rw [nlWorkloadSize, if_pos rfl, hstr]
    have : l.length + 1 + (2 ^ 64 - 1) = l.length + 2 ^ 64 := by
      have h64 : (1 : Nat) ≤ 2 ^ 64 := Nat.one_le_two_pow
      omega
    rw [this, Nat.add_mod_right, Nat.mod_eq_of_lt (by omega)]
  · rw [nlWorkloadSize, if_pos rfl]
    have hstr : strlenBytes (0 :: rest) = 0 := by
      simp [strlenBytes]
    rw [hstr, Nat.zero_add, Nat.mod_eq_of_lt (by omega)]

/-- Claim C10 witness: the line "hi!" (bytes 104 105 33, no trailing
newline) is submitted with size 2, its final byte 33 dropped even though it
is not a newline; a line starting with a NUL byte is submitted with size
2^64 − 1. -/
theorem nl_strip_size_witness :
    nlWorkloadSize true ([104, 105] ++ [33, 0]) = 2 ∧
    nlWorkloadSize true (0 :: []) = 2 ^ 64 - 1 := by
  have h := nl_strip_size [104, 105] [] 33 (by norm_num) (by norm_num)
    (by norm_num)
  simpa using h

/-- Claim C1 counterexample: with every setup step succeeding, a transport
failure surfaced by gearman_client_do (the `else` branch of _client_do)
prints the client error, breaks out of the loop, and the process exits 0 —
not 1 as the claim states for any transport failure. -/
theorem client_exit_codes_cex :
    clientMain ⟨true, true, true, true, true, true⟩ 0
        [⟨gearman_return_t.GEARMAN_OTHER_ERROR, [], 0, 0, 0⟩] =
      ProcOutcome.exit 0 ∧
    (clientDo 0 [⟨gearman_return_t.GEARMAN_OTHER_ERROR, [], 0, 0, 0⟩]).1 =
      [Event.stderrMsg StderrMsg.clientError] ∧
    ProcOutcome.exit 0 ≠ ProcOutcome.exit 1 :=
  ⟨rfl, rfl, by decide⟩

/-- Claim C1 (amended): the process exits 1 exactly on a setup failure (bad
option, signal, argument count, allocation on client creation, add_server
error, workload read/allocation failure) or on the write-failure exit inside
the do loop; when the do call itself returns — including on WORK_FAIL, which
prints Job failed, and on any other error return, which prints the client
error — the process exits 0. -/
theorem client_exit_codes (env : SetupEnv) (w : Int) (script : List DoResp)
    (r : DoResp) :
    (env.allOk = false → clientMain env w script = ProcOutcome.exit 1) ∧
    (env.allOk = true → (clientDo w script).2 = DoTerm.returned →
       clientMain env w script = ProcOutcome.exit 0) ∧
    (env.allOk = true → (clientDo w script).2 = DoTerm.exited 1 →
       clientMain env w script = ProcOutcome.exit 1) ∧
    (env.allOk = true → r.ret = gearman_return_t.GEARMAN_WORK_FAIL →
       clientMain env w [r] = ProcOutcome.exit 0 ∧
       (clientDo w [r]).1 = [Event.stderrMsg StderrMsg.jobFailed]) ∧
    (env.allOk = true → r.ret = gearman_return_t.GEARMAN_OTHER_ERROR →
       clientMain env w [r] = ProcOutcome.exit 0) := by
  obtain ⟨o, s, a, c, ad, rd⟩ := env
  obtain ⟨rret, rres, rnum, rden, rwr⟩ := r
  refine ⟨?_, ?_, ?_, ?_, ?_⟩
  · intro h
    cases o <;> cases s <;> cases a <;> cases c <;> cases ad <;> cases rd <;>
      simp_all [clientMain, SetupEnv.allOk]
  · intro h1 h2
    simp only [SetupEnv.allOk, Bool.and_eq_true] at h1
    obtain ⟨⟨⟨⟨⟨ho, hs⟩, ha⟩, hc⟩, had⟩, hrd⟩ := h1
    subst ho; subst hs; subst ha; subst hc; subst had; subst hrd
    simp [clientMain, h2]
  · intro h1 h2
    simp only [SetupEnv.allOk, Bool.and_eq_true] at h1
    obtain ⟨⟨⟨⟨⟨ho, hs⟩, ha⟩, hc⟩, had⟩, hrd⟩ := h1
    subst ho; subst hs; subst ha; subst hc; subst had; subst hrd
    simp [clientMain, h2]
  · intro h1 h2
    simp only [SetupEnv.allOk, Bool.and_eq_true] at h1
    obtain ⟨⟨⟨⟨⟨ho, hs⟩, ha⟩, hc⟩, had⟩, hrd⟩ := h1
    subst ho; subst hs; subst ha; subst hc; subst had; subst hrd
    cases h2
    exact ⟨rfl, rfl⟩
  · intro h1 h2
    simp only [SetupEnv.allOk, Bool.and_eq_true] at h1
    obtain ⟨⟨⟨⟨⟨ho, hs⟩, ha⟩, hc⟩, had⟩, hrd⟩ := h1
    subst ho; subst hs; subst ha; subst hc; subst had; subst hrd
    cases h2
    rfl

/-- Claim C1 witness: a failing add_server step exits 1; a successful setup
whose job ends in WORK_FAIL prints Job failed and exits 0. -/
theorem client_exit_codes_witness :
    clientMain ⟨true, true, true, true, false, true⟩ 0 [] =
      ProcOutcome.exit 1 ∧
    clientMain ⟨true, true, true, true, true, true⟩ 0
        [⟨gearman_return_t.GEARMAN_WORK_FAIL, [], 0, 0, 0⟩] =
      ProcOutcome.exit 0 := by
  constructor
  · exact (client_exit_codes ⟨true, true, true, true, false, true⟩ 0 []
      ⟨gearman_return_t.GEARMAN_SUCCESS, [], 0, 0, 0⟩).1 rfl
  · exact ((client_exit_codes ⟨true, true, true, true, true, true⟩ 0
      [⟨gearman_return_t.GEARMAN_WORK_FAIL, [], 0, 0, 0⟩]
      ⟨gearman_return_t.GEARMAN_WORK_FAIL, [], 0, 0, 0⟩).2.2.2.1 rfl rfl).1

end Gearman
